import Mathlib

/-!
Shallow embedding of the co2-monitor crate's core decoding pipeline.

Sources embedded here:
* `src/lib.rs` — `MonitorReadingParts` (the accumulator with its
  `set_op_val` / `to_reading` operations), `MonitorReading`, `Co2Value`;
* `src/device.rs` — `MonitorError` and the default implementation of
  `Co2MonitorCommunication::read_to_part`.

Modelling conventions:
* Rust `u8` buffer bytes are `Fin 256`; `u16` values are `Nat` (every value
  produced by the decoder is `< 65536` by construction).
* `f32` temperature arithmetic is idealised as exact rational arithmetic
  (`ℚ`); the conversion formula `(val as f32) / 16.0 - 273.15` becomes
  `(val : ℚ) / 16 - 273.15`.
* The `u16` subtraction `12811 - val` in the `0x6e` branch of `set_op_val`
  is embedded with release-profile (wrapping) semantics as
  `(12811 + 65536 - val) % 65536`; a separate `set_op_val_checked` models
  the overflow-checked (default debug) profile, where the same subtraction
  aborts with an arithmetic-overflow abort when `val > 12811`
  (modelled as `none`).
* The `&mut` parameters of the Rust methods become explicit state passing:
  `read_to_part` returns the accumulator state next to its
  `Result<Option<MonitorReading>, MonitorError>` value, and the transport
  read outcome (`Result<usize, MonitorError>` plus the bytes placed in the
  8-byte buffer) is an explicit input.
-/

/-- `Co2Value` from `src/lib.rs`: either a valid CO2 reading or one flagged
too high by the sanity check; both variants carry the raw PPM value. -/
inductive Co2Value where
  | valid (n : Nat)
  | tooHigh (n : Nat)
deriving DecidableEq

/-- `MonitorReading` from `src/lib.rs`: a complete reading. -/
structure MonitorReading where
  temperature : ℚ
  co2_value : Co2Value
deriving DecidableEq

/-- `MonitorReadingParts` from `src/lib.rs`: the accumulator with one
optional slot per known field. -/
structure MonitorReadingParts where
  temperature : Option ℚ
  co2_value : Option Nat
  co2_sanity_check : Option Nat
deriving DecidableEq

/-- `MonitorReadingParts::new` from `src/lib.rs`: all three slots empty. -/
def MonitorReadingParts.new : MonitorReadingParts :=
  { temperature := none, co2_value := none, co2_sanity_check := none }

/-- `MonitorReadingParts::set_op_val` from `src/lib.rs` (wrapping
semantics for the `0x6e` subtraction, i.e. the release profile):
opcode `0x42` stores the Celsius-converted temperature, `0x50` stores the
raw CO2 PPM, `0x6e` stores `12811 - val` (as `u16` arithmetic), and any
other opcode is a no-op. -/
def MonitorReadingParts.set_op_val (self : MonitorReadingParts) (op val : Nat) :
    MonitorReadingParts :=
  if op = 0x42 then
    { self with temperature := some ((val : ℚ) / 16 - 273.15) }
  else if op = 0x50 then
    { self with co2_value := some val }
  else if op = 0x6e then
    { self with co2_sanity_check := some ((12811 + 65536 - val) % 65536) }
  else
    self

/-- Rust `u16` subtraction under the overflow-checked (default debug)
profile: `none` models the arithmetic-overflow abort raised when the
subtrahend exceeds the minuend. -/
def u16_checked_sub (a b : Nat) : Option Nat :=
  if b ≤ a then some (a - b) else none

/-- `MonitorReadingParts::set_op_val` under the overflow-checked profile:
identical to `set_op_val` except that the `0x6e` branch propagates the
possible abort of `12811 - val` as `none`. -/
def MonitorReadingParts.set_op_val_checked (self : MonitorReadingParts)
    (op val : Nat) : Option MonitorReadingParts :=
  if op = 0x42 then
    some { self with temperature := some ((val : ℚ) / 16 - 273.15) }
  else if op = 0x50 then
    some { self with co2_value := some val }
  else if op = 0x6e then
    (u16_checked_sub 12811 val).map
      fun d => { self with co2_sanity_check := some d }
  else
    some self

/-- `MonitorReadingParts::to_reading` from `src/lib.rs`: `none` unless all
three slots are filled; on completeness, classify the CO2 value against the
3000 PPM threshold and build the reading. The receiver is `&self`: the
accumulator itself is not modified (in this pure embedding there is no
state output at all). -/
def MonitorReadingParts.to_reading (self : MonitorReadingParts) :
    Option MonitorReading :=
  match self.temperature, self.co2_value, self.co2_sanity_check with
  | some t, some c, some cs =>
      some { temperature := t
             co2_value :=
               if cs > 3000 ∨ c > 3000 then Co2Value.tooHigh c
               else Co2Value.valid c }
  | _, _, _ => none

/-- `MonitorError` from `src/device.rs`. -/
inductive MonitorError where
  | readFailed
  | missingTerminatorByte
  | checksumInvalid
  | timeout
deriving DecidableEq

/-- An 8-byte HID report buffer (`[u8; 8]`). -/
structure Buf where
  b0 : Fin 256
  b1 : Fin 256
  b2 : Fin 256
  b3 : Fin 256
  b4 : Fin 256
  b5 : Fin 256
  b6 : Fin 256
  b7 : Fin 256
deriving DecidableEq

/-- Default implementation of `Co2MonitorCommunication::read_to_part` from
`src/device.rs`. The transport read outcome is the explicit input
`read_result` (the `Result<usize, MonitorError>` together with the bytes the
transport placed in the local 8-byte buffer); the `&mut` accumulator becomes
the state component of the returned pair. On an exact 8-byte read the
terminator byte (index 4, must be `0x0d`) and the checksum
(`(b0 + b1 + b2) & 0xff == b3`) are enforced, returning early with the
matching error and an untouched accumulator; on success the extracted
`(op, val)` pair is applied via `set_op_val`; short reads and transport
errors are swallowed. The final value is `Ok(part.to_reading())`. -/
def read_to_part (read_result : Except MonitorError (Nat × Buf))
    (part : MonitorReadingParts) :
    MonitorReadingParts × Except MonitorError (Option MonitorReading) :=
  match read_result with
  | .ok (n, b) =>
      if n = 8 then
        if b.b4.val ≠ 0x0d then
          (part, .error .missingTerminatorByte)
        else if (b.b0.val + b.b1.val + b.b2.val) % 256 ≠ b.b3.val then
          (part, .error .checksumInvalid)
        else
          let op := b.b0.val
          let val := (b.b1.val <<< 8) ||| b.b2.val
          let part := part.set_op_val op val
          (part, .ok part.to_reading)
      else
        (part, .ok part.to_reading)
  | .error _ => (part, .ok part.to_reading)

/-- Folding a list of `(opcode, value)` reports into the accumulator via
`set_op_val`, in order. -/
def process_ops (p : MonitorReadingParts) (l : List (Nat × Nat)) :
    MonitorReadingParts :=
  l.foldl (fun q e => q.set_op_val e.1 e.2) p

/-- A well-formed report for opcode `0x42` (temperature) with raw value
`0x112d = 4397`; checksum `0x42 + 0x11 + 0x2d = 0x80`. -/
def tempBuf : Buf :=
  ⟨⟨0x42, by decide⟩, ⟨0x11, by decide⟩, ⟨0x2d, by decide⟩,
    ⟨0x80, by decide⟩, ⟨0x0d, by decide⟩, ⟨0, by decide⟩,
    ⟨0, by decide⟩, ⟨0, by decide⟩⟩

/-- A well-formed report for opcode `0x50` (CO2 value) with raw value
`0x01f4 = 500`; checksum `0x50 + 0x01 + 0xf4 = 0x145 ≡ 0x45`. -/
def co2Buf : Buf :=
  ⟨⟨0x50, by decide⟩, ⟨0x01, by decide⟩, ⟨0xf4, by decide⟩,
    ⟨0x45, by decide⟩, ⟨0x0d, by decide⟩, ⟨0, by decide⟩,
    ⟨0, by decide⟩, ⟨0, by decide⟩⟩

/-- A well-formed report for opcode `0x6e` (CO2 sanity check) with raw value
`0x2653 = 9811` (derived estimate `12811 - 9811 = 3000`); checksum
`0x6e + 0x26 + 0x53 = 0xe7`. -/
def sanityBuf : Buf :=
  ⟨⟨0x6e, by decide⟩, ⟨0x26, by decide⟩, ⟨0x53, by decide⟩,
    ⟨0xe7, by decide⟩, ⟨0x0d, by decide⟩, ⟨0, by decide⟩,
    ⟨0, by decide⟩, ⟨0, by decide⟩⟩

/-- A report whose terminator byte (index 4) is `0x00` instead of `0x0d`
(checksum would otherwise be fine). -/
def badTermBuf : Buf :=
  ⟨⟨0x42, by decide⟩, ⟨0x11, by decide⟩, ⟨0x2d, by decide⟩,
    ⟨0x80, by decide⟩, ⟨0x00, by decide⟩, ⟨0, by decide⟩,
    ⟨0, by decide⟩, ⟨0, by decide⟩⟩

/-- A report with terminator `0x0d` but a wrong checksum byte
(`0x42 + 0x11 + 0x2d = 0x80 ≠ 0x81`). -/
def badCkBuf : Buf :=
  ⟨⟨0x42, by decide⟩, ⟨0x11, by decide⟩, ⟨0x2d, by decide⟩,
    ⟨0x81, by decide⟩, ⟨0x0d, by decide⟩, ⟨0, by decide⟩,
    ⟨0, by decide⟩, ⟨0, by decide⟩⟩

/-- Decoding lemma shared below: on an exact 8-byte read that passes both
integrity checks, `read_to_part` applies
`set_op_val b0 (b1 * 256 + b2)` — the arithmetic value of
`(b1 << 8) | b2` — and returns `Ok` of `to_reading` on the updated
accumulator. -/
theorem read_to_part_ok8 (b : Buf) (p : MonitorReadingParts)
    (h4 : b.b4.val = 0x0d)
    (hck : (b.b0.val + b.b1.val + b.b2.val) % 256 = b.b3.val) :
    read_to_part (.ok (8, b)) p =
      (p.set_op_val b.b0.val (b.b1.val * 256 + b.b2.val),
        .ok (p.set_op_val b.b0.val
          (b.b1.val * 256 + b.b2.val)).to_reading) := by
  have hval : (b.b1.val <<< 8) ||| b.b2.val = b.b1.val * 256 + b.b2.val := by
    have h2 : b.b2.val < 2 ^ 8 := b.b2.isLt
    rw [Nat.shiftLeft_eq, Nat.mul_comm b.b1.val (2 ^ 8),
      ← Nat.mul_add_lt_is_or h2 b.b1.val, Nat.mul_comm (2 ^ 8) b.b1.val]
  simp [read_to_part, h4, hck, hval]

/-- C5: a reading assembled from a complete accumulator with raw CO2 value
`c` and sanity estimate `cs` carries `TooHigh c` iff `cs > 3000` or
`c > 3000`, and `Valid c` otherwise; either way the raw PPM value `c` is
carried in the variant. -/
theorem co2_classification (t : ℚ) (c cs : Nat) :
    (MonitorReadingParts.to_reading ⟨some t, some c, some cs⟩ =
        some ⟨t, Co2Value.tooHigh c⟩ ↔ (cs > 3000 ∨ c > 3000)) ∧
    (MonitorReadingParts.to_reading ⟨some t, some c, some cs⟩ =
        some ⟨t, Co2Value.valid c⟩ ↔ ¬(cs > 3000 ∨ c > 3000)) := by
  by_cases h : cs > 3000 ∨ c > 3000 <;>
    simp [MonitorReadingParts.to_reading, h]

/-- C7: opcode `0x42` stores `(val / 16) - 273.15` (degrees Celsius, with
`f32` idealised as exact rationals); raw value `4397` yields exactly
`1.6625`. -/
theorem temperature_conversion :
    (∀ (p : MonitorReadingParts) (val : Nat),
        (p.set_op_val 0x42 val).temperature =
          some ((val : ℚ) / 16 - 273.15)) ∧
    (MonitorReadingParts.new.set_op_val 0x42 4397).temperature =
      some (1.6625 : ℚ) := by
  constructor
  · intro p val
    simp [MonitorReadingParts.set_op_val]
  · norm_num [MonitorReadingParts.set_op_val, MonitorReadingParts.new]

/-- C8: whenever at least one slot is empty, `to_reading` returns `none`;
since `to_reading` takes the accumulator by shared reference (a pure
function here), repeated calls on such a state keep returning `none` and
never change the slots. -/
theorem to_reading_incomplete_none (p : MonitorReadingParts)
    (h : p.temperature = none ∨ p.co2_value = none ∨
      p.co2_sanity_check = none) :
    p.to_reading = none := by
  obtain ⟨t, c, cs⟩ := p
  cases t <;> cases c <;> cases cs <;>
    simp_all [MonitorReadingParts.to_reading]

/-- Witness for C8 at the concrete state `⟨none, some 5, some 7⟩`. -/
theorem to_reading_incomplete_none_witness :
    ((⟨none, some 5, some 7⟩ : MonitorReadingParts).temperature = none ∨
      (⟨none, some 5, some 7⟩ : MonitorReadingParts).co2_value = none ∨
      (⟨none, some 5, some 7⟩ : MonitorReadingParts).co2_sanity_check =
        none) ∧
    (⟨none, some 5, some 7⟩ : MonitorReadingParts).to_reading = none :=
  ⟨Or.inl rfl, to_reading_incomplete_none _ (Or.inl rfl)⟩

/-- C2 (code-bug evidence): delivering opcode `0x6e` with raw value
`12812 > 12811` makes the `u16` subtraction `12811 - val` underflow. Under
the overflow-checked (default debug) profile the code aborts (modelled as
`none`); with checks disabled it wraps and stores `65535`, which is not the
estimate `12811 - 12812`. -/
theorem set_op_val_sanity_underflow :
    MonitorReadingParts.new.set_op_val_checked 0x6e 12812 = none ∧
    (MonitorReadingParts.new.set_op_val 0x6e 12812).co2_sanity_check =
      some 65535 := by
  constructor <;> decide

/-- C3: an 8-byte report whose byte at index 4 is not `0x0d` is rejected by
`read_to_part` with `MissingTerminatorByte`, and the accumulator is
returned unmodified (no slot is written). -/
theorem missing_terminator_rejected (b : Buf) (p : MonitorReadingParts)
    (h : b.b4.val ≠ 0x0d) :
    read_to_part (.ok (8, b)) p = (p, .error .missingTerminatorByte) := by
  simp [read_to_part, h]

/-- Witness for C3 at the concrete report `badTermBuf`. -/
theorem missing_terminator_rejected_witness :
    badTermBuf.b4.val ≠ 0x0d ∧
    read_to_part (.ok (8, badTermBuf)) MonitorReadingParts.new =
      (MonitorReadingParts.new, .error .missingTerminatorByte) :=
  ⟨by decide, missing_terminator_rejected badTermBuf _ (by decide)⟩

/-- C4: an 8-byte report with terminator `0x0d` whose first three bytes do
not sum modulo 256 to byte 3 is rejected by `read_to_part` with
`ChecksumInvalid`, and the accumulator is returned unmodified (no slot is
written). -/
theorem checksum_invalid_rejected (b : Buf) (p : MonitorReadingParts)
    (h4 : b.b4.val = 0x0d)
    (hck : (b.b0.val + b.b1.val + b.b2.val) % 256 ≠ b.b3.val) :
    read_to_part (.ok (8, b)) p = (p, .error .checksumInvalid) := by
  simp [read_to_part, h4, hck]

/-- Witness for C4 at the concrete report `badCkBuf`. -/
theorem checksum_invalid_rejected_witness :
    (badCkBuf.b4.val = 0x0d ∧
      (badCkBuf.b0.val + badCkBuf.b1.val + badCkBuf.b2.val) % 256 ≠
        badCkBuf.b3.val) ∧
    read_to_part (.ok (8, badCkBuf)) MonitorReadingParts.new =
      (MonitorReadingParts.new, .error .checksumInvalid) :=
  ⟨⟨by decide, by decide⟩,
    checksum_invalid_rejected badCkBuf _ (by decide) (by decide)⟩

/-- C6: an 8-byte report with terminator `0x0d` and a valid checksum is
decoded into the pair `(op, val) = (b0, b1 * 256 + b2)` (the arithmetic
value of `(b1 << 8) | b2`), which is applied to the accumulator via
`set_op_val`, and the updated accumulator is queried for a reading. -/
theorem wellformed_decode_succeeds (b : Buf) (p : MonitorReadingParts)
    (h4 : b.b4.val = 0x0d)
    (hck : (b.b0.val + b.b1.val + b.b2.val) % 256 = b.b3.val) :
    read_to_part (.ok (8, b)) p =
      (p.set_op_val b.b0.val (b.b1.val * 256 + b.b2.val),
        .ok (p.set_op_val b.b0.val
          (b.b1.val * 256 + b.b2.val)).to_reading) :=
  read_to_part_ok8 b p h4 hck

/-- Witness for C6 at the concrete report `tempBuf`. -/
theorem wellformed_decode_succeeds_witness :
    (tempBuf.b4.val = 0x0d ∧
      (tempBuf.b0.val + tempBuf.b1.val + tempBuf.b2.val) % 256 =
        tempBuf.b3.val) ∧
    read_to_part (.ok (8, tempBuf)) MonitorReadingParts.new =
      (MonitorReadingParts.new.set_op_val tempBuf.b0.val
          (tempBuf.b1.val * 256 + tempBuf.b2.val),
        .ok (MonitorReadingParts.new.set_op_val tempBuf.b0.val
          (tempBuf.b1.val * 256 + tempBuf.b2.val)).to_reading) :=
  ⟨⟨by decide, by decide⟩,
    wellformed_decode_succeeds tempBuf _ (by decide) (by decide)⟩

/-- C9: `set_op_val` on an opcode outside `{0x42, 0x50, 0x6e}` leaves all
three slots unchanged, and consequently deleting all unknown-opcode reports
from any report sequence does not change the accumulator it produces (so
interleaved unknown reports neither prevent completion nor affect the
resulting reading). -/
theorem unknown_opcode_frame :
    (∀ (op val : Nat) (p : MonitorReadingParts),
        op ≠ 0x42 → op ≠ 0x50 → op ≠ 0x6e → p.set_op_val op val = p) ∧
    (∀ (p : MonitorReadingParts) (l : List (Nat × Nat)),
        process_ops p l = process_ops p
          (l.filter fun e => e.1 == 0x42 || e.1 == 0x50 || e.1 == 0x6e)) := by
  have frame : ∀ (op val : Nat) (p : MonitorReadingParts),
      op ≠ 0x42 → op ≠ 0x50 → op ≠ 0x6e → p.set_op_val op val = p := by
    intro op val p h1 h2 h3
    simp [MonitorReadingParts.set_op_val, h1, h2, h3]
  refine ⟨frame, ?_⟩
  intro p l
  induction l generalizing p with
  | nil => rfl
  | cons e t ih =>
      obtain ⟨op, val⟩ := e
      rw [show process_ops p ((op, val) :: t) =
        process_ops (p.set_op_val op val) t from rfl]
      rw [List.filter_cons]
      by_cases hk : ((op, val).1 == 0x42 || (op, val).1 == 0x50 ||
          (op, val).1 == 0x6e) = true
      · rw [if_pos hk]
        rw [show process_ops p ((op, val) :: List.filter _ t) =
          process_ops (p.set_op_val op val) (List.filter _ t) from rfl]
        exact ih _
      · rw [if_neg hk]
        simp only [Bool.or_eq_true, beq_iff_eq, not_or] at hk
        rw [frame op val p hk.1.1 hk.1.2 hk.2]
        exact ih p

/-- Witness for C9 at the unknown opcode `0x43`. -/
theorem unknown_opcode_frame_witness :
    ((0x43 : Nat) ≠ 0x42 ∧ (0x43 : Nat) ≠ 0x50 ∧ (0x43 : Nat) ≠ 0x6e) ∧
    MonitorReadingParts.new.set_op_val 0x43 7 = MonitorReadingParts.new :=
  ⟨⟨by decide, by decide, by decide⟩,
    unknown_opcode_frame.1 0x43 7 MonitorReadingParts.new
      (by decide) (by decide) (by decide)⟩

/-- C10: `read_to_part` never returns `Err(ReadFailed)` or `Err(Timeout)`;
a transport read error, and likewise a read of fewer than 8 bytes, leaves
the accumulator unmodified and yields `Ok` of `to_reading` on that
unchanged state (which is a complete reading when the accumulator was
already complete on entry). -/
theorem read_errors_swallowed :
    (∀ (rr : Except MonitorError (Nat × Buf)) (p : MonitorReadingParts),
        (read_to_part rr p).2 ≠ .error .readFailed ∧
        (read_to_part rr p).2 ≠ .error .timeout) ∧
    (∀ (e : MonitorError) (p : MonitorReadingParts),
        read_to_part (.error e) p = (p, .ok p.to_reading)) ∧
    (∀ (n : Nat) (b : Buf) (p : MonitorReadingParts), n ≠ 8 →
        read_to_part (.ok (n, b)) p = (p, .ok p.to_reading)) := by
  refine ⟨?_, ?_, ?_⟩
  · intro rr p
    match rr with
    | .error e => simp [read_to_part]
    | .ok (n, b) =>
        by_cases h8 : n = 8
        · subst h8
          simp only [read_to_part]
          split_ifs <;> simp
        · simp [read_to_part, h8]
  · intro e p
    rfl
  · intro n b p h
    simp [read_to_part, h]

/-- Witness for C10 at a 3-byte short read. -/
theorem read_errors_swallowed_witness :
    (3 : Nat) ≠ 8 ∧
    read_to_part (.ok (3, badTermBuf)) MonitorReadingParts.new =
      (MonitorReadingParts.new, .ok MonitorReadingParts.new.to_reading) :=
  ⟨by decide, read_errors_swallowed.2.2 3 badTermBuf
    MonitorReadingParts.new (by decide)⟩

/-- Opcode `0x42` stores the converted temperature and touches nothing
else. -/
theorem set_op_val_temp (p : MonitorReadingParts) (v : Nat) :
    p.set_op_val 0x42 v =
      { p with temperature := some ((v : ℚ) / 16 - 273.15) } := by
  simp [MonitorReadingParts.set_op_val]

/-- Opcode `0x50` stores the raw CO2 value and touches nothing else. -/
theorem set_op_val_co2 (p : MonitorReadingParts) (v : Nat) :
    p.set_op_val 0x50 v = { p with co2_value := some v } := by
  simp [MonitorReadingParts.set_op_val]

/-- Opcode `0x6e` stores the derived sanity estimate and touches nothing
else. -/
theorem set_op_val_sanity (p : MonitorReadingParts) (v : Nat) :
    p.set_op_val 0x6e v =
      { p with co2_sanity_check := some ((12811 + 65536 - v) % 65536) } := by
  simp [MonitorReadingParts.set_op_val]

/-- A permutation of a two-element list is one of its two arrangements. -/
theorem perm_two {α : Type _} {y z b c : α} (h : [y, z].Perm [b, c]) :
    (y = b ∧ z = c) ∨ (y = c ∧ z = b) := by
  have hy : y ∈ [b, c] := h.mem_iff.mp (by simp)
  simp only [List.mem_cons, List.not_mem_nil, or_false] at hy
  rcases hy with hyb | hyc
  · subst hyb
    left
    refine ⟨rfl, ?_⟩
    have hz := List.perm_singleton.mp h.cons_inv
    simpa using hz
  · subst hyc
    right
    refine ⟨rfl, ?_⟩
    have h2 := (h.trans (List.Perm.swap y b [])).cons_inv
    have hz := List.perm_singleton.mp h2
    simpa using hz

/-- A permutation of a three-element list is one of its six arrangements. -/
theorem perm_three {α : Type _} {x y z a b c : α}
    (h : [x, y, z].Perm [a, b, c]) :
    (x = a ∧ ((y = b ∧ z = c) ∨ (y = c ∧ z = b))) ∨
    (x = b ∧ ((y = a ∧ z = c) ∨ (y = c ∧ z = a))) ∨
    (x = c ∧ ((y = a ∧ z = b) ∨ (y = b ∧ z = a))) := by
  have hx : x ∈ [a, b, c] := h.mem_iff.mp (by simp)
  simp only [List.mem_cons, List.not_mem_nil, or_false] at hx
  rcases hx with hxa | hxb | hxc
  · subst hxa
    exact Or.inl ⟨rfl, perm_two h.cons_inv⟩
  · subst hxb
    refine Or.inr (Or.inl ⟨rfl, ?_⟩)
    exact perm_two (h.trans (List.Perm.swap x a [c])).cons_inv
  · subst hxc
    refine Or.inr (Or.inr ⟨rfl, ?_⟩)
    have h2 : [a, b, x].Perm [x, a, b] :=
      (List.Perm.cons a (List.Perm.swap x b [])).trans
        (List.Perm.swap x a [b])
    exact perm_two (h.trans h2).cons_inv

/-- C1 (counterexample): running the three well-formed reports for the
three known opcodes through `read_to_part` from the empty accumulator
produces a complete reading on the third step, but the accumulator that
comes back is fully filled, not cleared to all-`None`: `to_reading` takes
the accumulator by shared reference and never resets the slots. -/
theorem to_reading_does_not_clear_counterexample :
    (read_to_part (.ok (8, sanityBuf))
        (read_to_part (.ok (8, co2Buf))
          (read_to_part (.ok (8, tempBuf)) MonitorReadingParts.new).1).1).2 =
      .ok (some { temperature := (4397 : ℚ) / 16 - 273.15
                  co2_value := Co2Value.valid 500 }) ∧
    (read_to_part (.ok (8, sanityBuf))
        (read_to_part (.ok (8, co2Buf))
          (read_to_part (.ok (8, tempBuf)) MonitorReadingParts.new).1).1).1 =
      { temperature := some ((4397 : ℚ) / 16 - 273.15)
        co2_value := some 500
        co2_sanity_check := some 3000 } ∧
    (read_to_part (.ok (8, sanityBuf))
        (read_to_part (.ok (8, co2Buf))
          (read_to_part (.ok (8, tempBuf)) MonitorReadingParts.new).1).1).1 ≠
      MonitorReadingParts.new := by
  have s1 : (read_to_part (.ok (8, tempBuf)) MonitorReadingParts.new).1 =
      { temperature := some ((4397 : ℚ) / 16 - 273.15)
        co2_value := none
        co2_sanity_check := none } := by
    rw [read_to_part_ok8 tempBuf MonitorReadingParts.new (by decide)
      (by decide)]
    norm_num [tempBuf, MonitorReadingParts.set_op_val,
      MonitorReadingParts.new]
  have s2 : (read_to_part (.ok (8, co2Buf))
      ({ temperature := some ((4397 : ℚ) / 16 - 273.15)
         co2_value := none
         co2_sanity_check := none } : MonitorReadingParts)).1 =
      { temperature := some ((4397 : ℚ) / 16 - 273.15)
        co2_value := some 500
        co2_sanity_check := none } := by
    rw [read_to_part_ok8 co2Buf _ (by decide) (by decide)]
    norm_num [co2Buf, MonitorReadingParts.set_op_val]
  have s3 : read_to_part (.ok (8, sanityBuf))
      ({ temperature := some ((4397 : ℚ) / 16 - 273.15)
         co2_value := some 500
         co2_sanity_check := none } : MonitorReadingParts) =
      ({ temperature := some ((4397 : ℚ) / 16 - 273.15)
         co2_value := some 500
         co2_sanity_check := some 3000 },
        .ok (some { temperature := (4397 : ℚ) / 16 - 273.15
                    co2_value := Co2Value.valid 500 })) := by
    rw [read_to_part_ok8 sanityBuf _ (by decide) (by decide)]
    norm_num [sanityBuf, MonitorReadingParts.set_op_val,
      MonitorReadingParts.to_reading]
  rw [s1, s2, s3]
  refine ⟨rfl, rfl, ?_⟩
  simp [MonitorReadingParts.new]

/-- C1 (amended): feeding the three known opcodes (with raw values `t`,
`c`, `s`) each exactly once, in any order, from the empty accumulator
yields exactly one reading — `to_reading` is `none` after the first and
second report and `some` after the third — but the accumulator is NOT
cleared: immediately after the reading is produced all three slots are
still filled (`to_reading` takes the accumulator by shared reference and
never resets it; the polling loop in `Co2Monitor::poll` starts empty each
call only because it constructs a fresh accumulator). -/
theorem three_opcodes_once_any_order_reading (t c s : Nat)
    (x y z : Nat × Nat)
    (h : [x, y, z].Perm [(0x42, t), (0x50, c), (0x6e, s)]) :
    (MonitorReadingParts.new.set_op_val x.1 x.2).to_reading = none ∧
    ((MonitorReadingParts.new.set_op_val x.1 x.2).set_op_val
      y.1 y.2).to_reading = none ∧
    ((MonitorReadingParts.new.set_op_val x.1 x.2).set_op_val
      y.1 y.2).set_op_val z.1 z.2 =
      { temperature := some ((t : ℚ) / 16 - 273.15)
        co2_value := some c
        co2_sanity_check := some ((12811 + 65536 - s) % 65536) } ∧
    (((MonitorReadingParts.new.set_op_val x.1 x.2).set_op_val
      y.1 y.2).set_op_val z.1 z.2).to_reading =
      some { temperature := (t : ℚ) / 16 - 273.15
             co2_value :=
               if (12811 + 65536 - s) % 65536 > 3000 ∨ c > 3000 then
                 Co2Value.tooHigh c
               else Co2Value.valid c } := by
  rcases perm_three h with ⟨hx, hyz⟩ | ⟨hx, hyz⟩ | ⟨hx, hyz⟩ <;>
    rcases hyz with ⟨hy, hz⟩ | ⟨hy, hz⟩ <;>
      subst hx <;> subst hy <;> subst hz <;>
        simp [set_op_val_temp, set_op_val_co2, set_op_val_sanity,
          MonitorReadingParts.new, MonitorReadingParts.to_reading]

/-- Witness for C1 (amended) at the order `0x50, 0x6e, 0x42` with raw
values `4397` (temperature), `500` (CO2) and `9811` (sanity, estimate
`3000`). -/
theorem three_opcodes_once_any_order_reading_witness :
    ([((0x50 : Nat), (500 : Nat)), (0x6e, 9811), (0x42, 4397)]).Perm
      [((0x42 : Nat), (4397 : Nat)), (0x50, 500), (0x6e, 9811)] ∧
    ((MonitorReadingParts.new.set_op_val 0x50 500).to_reading = none ∧
      ((MonitorReadingParts.new.set_op_val 0x50 500).set_op_val
        0x6e 9811).to_reading = none ∧
      ((MonitorReadingParts.new.set_op_val 0x50 500).set_op_val
        0x6e 9811).set_op_val 0x42 4397 =
        { temperature := some ((4397 : ℚ) / 16 - 273.15)
          co2_value := some 500
          co2_sanity_check := some ((12811 + 65536 - 9811) % 65536) } ∧
      (((MonitorReadingParts.new.set_op_val 0x50 500).set_op_val
        0x6e 9811).set_op_val 0x42 4397).to_reading =
        some { temperature := (4397 : ℚ) / 16 - 273.15
               co2_value :=
                 if (12811 + 65536 - 9811) % 65536 > 3000 ∨ 500 > 3000 then
                   Co2Value.tooHigh 500
                 else Co2Value.valid 500 }) :=
  ⟨by decide,
    three_opcodes_once_any_order_reading 4397 500 9811
      (0x50, 500) (0x6e, 9811) (0x42, 4397) (by decide)⟩
